import Mathlib

/-!
Verification of the per-table replication engine of pg2ch
(`src/pkg/tableengines/generic.go`), as a shallow embedding.

Modelling conventions:
* Byte sequences are `List Nat` (byte values); the tab byte is `9`, newline `10`.
* `utils.LSN` is a `uint64`; we model it as `Nat` (LSN comparisons in the
  engine are value comparisons; both `StrBytes` and `FormattedBytes` are
  injective renderings so the persisted checkpoint is modelled by its value).
* The loader (`chLoader`) byte accumulator is the `buffer` field of the
  state; `BufferWrite` appends to it, `BufferFlush` ships and clears it
  (per the spec's description of the loader, which is outside the excerpt).
* External side effects (sink `Exec` / `BufferFlush` / truncations / the
  checkpoint store) are recorded in a call log, and their success or
  failure is injected through environment records, one outcome per call
  or per retry attempt.
* Errors are an inductive type mirroring the distinct error returns of the
  source; `EngErr.abortRetrying` is the literal "abort retrying" error.
-/

namespace Pg2ch

/-- `maxAttempts` constant from the source (generic.go line 30). -/
def maxAttempts : Nat := 100

/-- The column delimiter byte `'\t'` (generic.go line 32). -/
def tabByte : Nat := 9

/-- The newline byte written by `writeLine`. -/
def newlineByte : Nat := 10

/-- Decimal rendering of a natural number as bytes, as produced by
`strconv.FormatUint(n, 10)`.  Modelled from the spec: `utils.LSN.StrBytes`
is not part of the excerpt; the spec states the event LSN is appended
"as decimal". -/
def natDec (n : Nat) : List Nat := (Nat.repr n).data.map Char.toNat

/-- The slice of `config.Table` the engine reads (generic.go). -/
structure Config where
  maxBufferLength : Nat
  flushThreshold : Nat
  hasBufferTable : Bool
  hasSyncAuxTable : Bool
  initSyncSkipTruncate : Bool
  flushQueries : List String
  mainTable : String
  bufferTable : String
  syncAuxTable : String
  chUsedColumns : List String
  bufferTableRowIdColumn : String
  lsnColumnName : String
  deriving Repr, DecidableEq

/-- Mutable state of `genericTable` relevant to the claims, together with the
loader byte accumulator (`buffer`) and the persisted checkpoint (`checkpoint`,
the LSN stored by `persStorage.Write` under the table's key; `none` = no
entry yet). -/
@[ext] structure EngineState where
  bufferCmdId : Nat
  bufferRowId : Nat
  bufferFlushCnt : Nat
  inSync : Bool
  syncSnapshotLSN : Nat
  auxTblRowID : Nat
  syncedRows : Nat
  rowsToSync : Nat
  buffer : List Nat
  checkpoint : Option Nat
  deriving Repr, DecidableEq

/-- One recorded sink / storage side effect. -/
inductive SinkCall where
  | bufferFlush (target : String) (cols : List String)
  | exec (sql : String)
  | truncate (table : String)
  | query (sql : String)
  | persWrite (lsn : Nat)
  deriving Repr, DecidableEq

/-- Error returns of the engine, mirroring the `fmt.Errorf` sites of the
source.  `abortRetrying` is the literal "abort retrying" error. -/
inductive EngErr where
  | flushErr (target : String) (msg : String)
  | abortRetrying
  | truncErr (table : String)
  | persErr
  | copyErr (msg : String)
  | countMismatch (synced : Nat) (pgRows : Int)
  | bulkStartErr
  | bulkFinishErr
  | loadErr
  | mergeErr
  deriving Repr, DecidableEq

/-- Result of one engine entry point: the post-state, the sink calls it
issued (in order), and the error it returned (`none` = nil error). -/
structure StepResult where
  state : EngineState
  calls : List SinkCall
  err : Option EngErr
  deriving Repr, DecidableEq

/-- `syncAuxTableColumns` (generic.go lines 544-546). -/
def syncAuxTableColumns (cfg : Config) : List String :=
  cfg.chUsedColumns ++ [cfg.bufferTableRowIdColumn, cfg.lsnColumnName]

/-- The table `attemptFlushBuffer` flushes to (generic.go lines 371-379). -/
def flushTarget (cfg : Config) (st : EngineState) : String :=
  if st.inSync then cfg.syncAuxTable else cfg.mainTable

/-- `attemptFlushBuffer` (generic.go lines 366-385): no-op when the buffer
holds no command; otherwise one `BufferFlush` to the sync-aux table (in
sync) or the main table, whose outcome is injected as `sinkRes` (`none` =
success, `some msg` = the sink's error message).  On success the command
counter resets, the flush counter increments, and the loader accumulator is
cleared. -/
def attemptFlushBuffer (cfg : Config) (st : EngineState) (sinkRes : Option String) :
    StepResult :=
  if st.bufferCmdId = 0 then ⟨st, [], none⟩
  else
    let target := flushTarget cfg st
    let cols := if st.inSync then syncAuxTableColumns cfg else cfg.chUsedColumns
    match sinkRes with
    | some msg => ⟨st, [.bufferFlush target cols], some (.flushErr target msg)⟩
    | none =>
        ⟨{ st with bufferCmdId := 0, bufferFlushCnt := st.bufferFlushCnt + 1,
                   buffer := [] },
         [.bufferFlush target cols], none⟩

/-- The retry loop of `flushBuffer` (generic.go lines 318-341), with fuel:
attempt `i` uses sink outcome `sinkRes i`; after a failed attempt,
`cancelled i` tells whether the engine context is done at that select point
(returning the "abort retrying" error); when fuel runs out the last
attempt's error is returned. -/
def flushAttempts (cfg : Config) (sinkRes : Nat → Option String)
    (cancelled : Nat → Bool) :
    Nat → Nat → EngErr → EngineState → List SinkCall → StepResult
  | 0, _, lastErr, st, acc => ⟨st, acc, some lastErr⟩
  | fuel + 1, i, _, st, acc =>
    let r := attemptFlushBuffer cfg st (sinkRes i)
    match r.err with
    | none => ⟨r.state, acc ++ r.calls, none⟩
    | some e =>
        if cancelled i then ⟨r.state, acc ++ r.calls, some .abortRetrying⟩
        else flushAttempts cfg sinkRes cancelled fuel (i + 1) e r.state (acc ++ r.calls)

/-- `flushBuffer` (generic.go lines 318-341). -/
def flushBuffer (cfg : Config) (st : EngineState) (sinkRes : Nat → Option String)
    (cancelled : Nat → Bool) : StepResult :=
  flushAttempts cfg sinkRes cancelled maxAttempts 0 .abortRetrying st []

/-- `Truncate` (generic.go lines 476-488): zeroes `bufferCmdId`, truncates
the main table, then the buffer table when configured.  `truncMainOk` /
`truncBufOk` inject success of the two sink truncations. -/
def Truncate (cfg : Config) (st : EngineState) (lsn : Nat)
    (truncMainOk truncBufOk : Bool) : StepResult :=
  let st1 : EngineState := { st with bufferCmdId := 0 }
  if truncMainOk = false then
    ⟨st1, [.truncate cfg.mainTable], some (.truncErr cfg.mainTable)⟩
  else if cfg.hasBufferTable = false then
    ⟨st1, [.truncate cfg.mainTable], none⟩
  else if truncBufOk = false then
    ⟨st1, [.truncate cfg.mainTable, .truncate cfg.bufferTable],
      some (.truncErr cfg.bufferTable)⟩
  else
    ⟨st1, [.truncate cfg.mainTable, .truncate cfg.bufferTable], none⟩

/-- Result of `processChTuples`: a `StepResult` plus the returned
`mergeIsNeeded` flag. -/
structure PctResult where
  state : EngineState
  calls : List SinkCall
  err : Option EngErr
  mergeNeeded : Bool
  deriving Repr, DecidableEq

/-- The per-row loop of `processChTuples` (generic.go lines 283-300).
Returns the state after the writes together with a flag that is `true`
when the batch was dropped (the `lsn < syncSnapshotLSN` early return).
While in sync each row is augmented with `'\t' ++ auxTblRowID ++ '\t' ++
lsn.StrBytes()` before being written, and `auxTblRowID` increments per
row; every written row is followed by a newline and bumps `bufferRowId`. -/
def procRows (lsn : Nat) : EngineState → List (List Nat) → EngineState × Bool
  | st, [] => (st, false)
  | st, row :: rest =>
    if st.inSync then
      let aug := row ++ tabByte :: natDec st.auxTblRowID ++ tabByte :: natDec lsn
      procRows lsn
        { st with auxTblRowID := st.auxTblRowID + 1,
                  buffer := st.buffer ++ aug ++ [newlineByte],
                  bufferRowId := st.bufferRowId + 1 } rest
    else if lsn < st.syncSnapshotLSN then (st, true)
    else
      procRows lsn
        { st with buffer := st.buffer ++ row ++ [newlineByte],
                  bufferRowId := st.bufferRowId + 1 } rest

/-- The tail of `processChTuples` after the tuple loop (generic.go lines
305-315): auto-flush when the command counter reached `maxBufferLength`,
then compute the `mergeIsNeeded` return (false when no buffer table is
configured, else `bufferFlushCnt >= flushThreshold`). -/
def pctFinish (cfg : Config) (st1 : EngineState)
    (sinkRes : Nat → Option String) (cancelled : Nat → Bool) : PctResult :=
  if st1.bufferCmdId = cfg.maxBufferLength then
    let f := flushBuffer cfg st1 sinkRes cancelled
    match f.err with
    | some e => ⟨f.state, f.calls, some e, false⟩
    | none =>
        if cfg.hasBufferTable then
          ⟨f.state, f.calls, none,
            decide (cfg.flushThreshold ≤ f.state.bufferFlushCnt)⟩
        else ⟨f.state, f.calls, none, false⟩
  else
    if cfg.hasBufferTable then
      ⟨st1, [], none, decide (cfg.flushThreshold ≤ st1.bufferFlushCnt)⟩
    else ⟨st1, [], none, false⟩

/-- `processChTuples` (generic.go lines 281-316).  `set = none` models a
nil tuple set (the `set != nil` guard); the auto-flush uses the
`flushBuffer` retry machinery with injected outcomes `sinkRes` /
`cancelled`. -/
def processChTuples (cfg : Config) (st : EngineState)
    (sinkRes : Nat → Option String) (cancelled : Nat → Bool)
    (lsn : Nat) (set : Option (List (List Nat))) : PctResult :=
  let afterSet : EngineState × Bool :=
    match set with
    | none => (st, false)
    | some rows =>
        let (st1, dropped) := procRows lsn st rows
        if dropped then (st1, true)
        else ({ st1 with bufferCmdId := st1.bufferCmdId + 1 }, false)
  match afterSet with
  | (st1, true) => ⟨st1, [], none, false⟩
  | (st1, false) => pctFinish cfg st1 sinkRes cancelled

/-- `tryFlushToMainTable` (generic.go lines 387-398): executes the
configured promotion queries in order; `res = none` means all succeed
(then `bufferFlushCnt` and `bufferRowId` reset), `res = some k` means the
query at index `k` fails (queries `0..k` were issued). -/
def tryFlushToMainTable (cfg : Config) (st : EngineState) (res : Option Nat) :
    StepResult :=
  match res with
  | some k =>
      ⟨st, (cfg.flushQueries.take (k + 1)).map SinkCall.exec, some .mergeErr⟩
  | none =>
      ⟨{ st with bufferFlushCnt := 0, bufferRowId := 0 },
        cfg.flushQueries.map SinkCall.exec, none⟩

/-- Outcome of the promotion retry loop inside `FlushToMainTable`. -/
inductive RetryOutcome where
  | passed
  | aborted
  | exhausted
  deriving Repr, DecidableEq

/-- The promotion retry loop of `FlushToMainTable` (generic.go lines
418-433), with fuel.  Attempt `i`'s outcome is `promRes i`; after a failed
attempt `promCancelled i` tells whether the engine context is done at that
select point.  Note the loop's error is dropped when the fuel runs out:
the source declares `err` inside the loop body and never returns it after
the loop, so exhaustion falls through (`RetryOutcome.exhausted`). -/
def promAttempts (cfg : Config) (promRes : Nat → Option Nat)
    (promCancelled : Nat → Bool) :
    Nat → Nat → EngineState → List SinkCall →
      EngineState × List SinkCall × RetryOutcome
  | 0, _, st, acc => (st, acc, .exhausted)
  | fuel + 1, i, st, acc =>
    let r := tryFlushToMainTable cfg st (promRes i)
    match r.err with
    | none => (r.state, acc ++ r.calls, .passed)
    | some _ =>
        if promCancelled i then (r.state, acc ++ r.calls, .aborted)
        else promAttempts cfg promRes promCancelled fuel (i + 1) r.state (acc ++ r.calls)

/-- Environment of one `FlushToMainTable` call: injected outcomes for the
buffer-flush retry loop, the promotion retry loop, the buffer-table
truncation, and the checkpoint-store write. -/
structure FtmEnv where
  flushSink : Nat → Option String
  flushCancelled : Nat → Bool
  promRes : Nat → Option Nat
  promCancelled : Nat → Bool
  truncBufOk : Bool
  persOk : Bool

/-- `FlushToMainTable` (generic.go lines 401-448). -/
def FlushToMainTable (cfg : Config) (st : EngineState) (env : FtmEnv)
    (lsn : Nat) : StepResult :=
  let f := flushBuffer cfg st env.flushSink env.flushCancelled
  match f.err with
  | some e => ⟨f.state, f.calls, some e⟩
  | none =>
    let st1 := f.state
    if cfg.hasBufferTable = false ∨ st1.bufferFlushCnt = 0 then
      ⟨st1, f.calls, none⟩
    else
      let p := promAttempts cfg env.promRes env.promCancelled maxAttempts 0 st1 []
      match p.2.2 with
      | .aborted => ⟨p.1, f.calls ++ p.2.1, some .abortRetrying⟩
      | _ =>
        let calls2 := f.calls ++ p.2.1 ++ [.truncate cfg.bufferTable]
        if env.truncBufOk = false then
          ⟨p.1, calls2, some (.truncErr cfg.bufferTable)⟩
        else if p.1.inSync then ⟨p.1, calls2, none⟩
        else if env.persOk then
          ⟨{ p.1 with checkpoint := some lsn }, calls2 ++ [.persWrite lsn], none⟩
        else ⟨p.1, calls2 ++ [.persWrite lsn], some .persErr⟩

/-- The merge statement of `genSync` (generic.go lines 256-263). -/
def mergeSql (cfg : Config) (snapshotLSN : Nat) : String :=
  "INSERT INTO " ++ cfg.mainTable ++ "(" ++ String.intercalate "," cfg.chUsedColumns ++
    ") SELECT " ++ String.intercalate "," cfg.chUsedColumns ++ " FROM " ++
    cfg.syncAuxTable ++ " WHERE " ++ cfg.lsnColumnName ++ " > " ++
    Nat.repr snapshotLSN ++ " ORDER BY " ++ cfg.bufferTableRowIdColumn

/-- The `deltaSize` count query (generic.go lines 552-559). -/
def deltaSizeSql (cfg : Config) (lsn : Nat) : String :=
  "SELECT count() FROM " ++ cfg.syncAuxTable ++ " WHERE " ++ cfg.lsnColumnName ++
    " > " ++ Nat.repr lsn

/-- Environment of one `genSync` call: injected outcomes of the external
steps, in the order the source performs them.  `copiedRows` is the number
of COPY lines the writer pipeline pushed through `genSyncWrite` (each
incremented `syncedRows`); `pgRowsAffected` is the source COPY's reported
affected-row count (`ct.RowsAffected()`, an `int64`). -/
structure SyncEnv where
  truncAux1Ok : Bool
  statRows : Option Nat
  truncMainOk : Bool
  bulkStartOk : Bool
  copyFail : Option String
  copiedRows : Nat
  pgRowsAffected : Int
  bulkFinishOk : Bool
  loadOk : Bool
  flushSink : Nat → Option String
  flushCancelled : Nat → Bool
  mergeOk : Bool
  truncAux2Ok : Bool
  persOk : Bool

/-- `genSync` (generic.go lines 188-279): truncate the sync-aux table,
record the snapshot LSN, best-effort row estimate, truncate the main table
unless skipped, run the COPY through the bulk uploader, cross-check the
reported row count against `syncedRows`, flush buffered live events,
merge the aux table into the main table, truncate the aux table, persist
the snapshot LSN, and only then leave sync mode.  `genSyncTail` is the
portion after the row-count cross-check passes (generic.go lines 240-278):
await the loader, flush buffered live events, merge, truncate, persist,
leave sync mode. -/
def genSyncTail (cfg : Config) (st : EngineState) (env : SyncEnv)
    (snapshotLSN : Nat) (c2 : List SinkCall) : StepResult :=
  if env.loadOk = false then ⟨st, c2, some .loadErr⟩
  else
  let f := flushBuffer cfg st env.flushSink env.flushCancelled
  match f.err with
  | some e => ⟨f.state, c2 ++ f.calls, some e⟩
  | none =>
  let st := f.state
  let c3 := c2 ++ f.calls ++ [.query (deltaSizeSql cfg snapshotLSN),
                              .exec (mergeSql cfg snapshotLSN)]
  if env.mergeOk = false then ⟨st, c3, some .mergeErr⟩
  else
  let c4 := c3 ++ (if cfg.hasSyncAuxTable then [.truncate cfg.syncAuxTable] else [])
  if cfg.hasSyncAuxTable ∧ env.truncAux2Ok = false then
    ⟨st, c4, some (.truncErr cfg.syncAuxTable)⟩
  else
  if env.persOk = false then
    ⟨st, c4 ++ [.persWrite snapshotLSN], some .persErr⟩
  else
  ⟨{ st with checkpoint := some snapshotLSN, inSync := false },
    c4 ++ [.persWrite snapshotLSN], none⟩

/-- `genSync`, part before the row-count cross-check (generic.go lines
188-236), continuing into `genSyncTail` when the check passes. -/
def genSync (cfg : Config) (st : EngineState) (env : SyncEnv)
    (snapshotLSN : Nat) : StepResult :=
  let c1 : List SinkCall :=
    if cfg.hasSyncAuxTable then [.truncate cfg.syncAuxTable] else []
  if cfg.hasSyncAuxTable ∧ env.truncAux1Ok = false then
    ⟨st, c1, some (.truncErr cfg.syncAuxTable)⟩
  else
  let st := { st with syncSnapshotLSN := snapshotLSN }
  let st := match env.statRows with
    | some n => { st with rowsToSync := n }
    | none => st
  let c2 := c1 ++ (if cfg.initSyncSkipTruncate then [] else [.truncate cfg.mainTable])
  if cfg.initSyncSkipTruncate = false ∧ env.truncMainOk = false then
    ⟨st, c2, some (.truncErr cfg.mainTable)⟩
  else
  let st := { st with syncedRows := 0 }
  if env.bulkStartOk = false then ⟨st, c2, some .bulkStartErr⟩
  else
  let st := { st with syncedRows := env.copiedRows }
  match env.copyFail with
  | some m => ⟨st, c2, some (.copyErr m)⟩
  | none =>
  if env.bulkFinishOk = false then ⟨st, c2, some .bulkFinishErr⟩
  else
  if env.pgRowsAffected ≠ (env.copiedRows : Int) then
    ⟨st, c2, some (.countMismatch env.copiedRows env.pgRowsAffected)⟩
  else
  genSyncTail cfg st env snapshotLSN c2

/-- A source relation column as delivered by the RELATION message
(`message.Column`): its name and whether it is part of the key. -/
structure PgColumn where
  name : String
  isKey : Bool
  deriving Repr, DecidableEq

/-- The per-column loop of `convertRow` (generic.go lines 453-463):
iterate source columns with their index `colId`, skip columns absent from
`columnMapping` (the `mapped` predicate), and for a mapped column append a
tab when `colId > 0` followed by the external converter's output `conv
colId` (the bytes `chutils.ConvertColumn` produces for that column of the
row). -/
def convertLoop (mapped : String → Bool) (conv : Nat → List Nat) :
    List PgColumn → Nat → List Nat → List Nat
  | [], _, res => res
  | c :: rest, colId, res =>
    let res :=
      if mapped c.name then
        (if 0 < colId then res ++ [tabByte] else res) ++ conv colId
      else res
    convertLoop mapped conv rest (colId + 1) res

/-- `convertRow` (generic.go lines 450-473).  `generationColumn` and
`generationID` mirror `cfg.GenerationColumn` and the shared `*generationID`
counter. -/
def convertRow (tupleColumns : List PgColumn) (mapped : String → Bool)
    (conv : Nat → List Nat) (generationColumn : String) (generationID : Nat) :
    List Nat :=
  let res := convertLoop mapped conv tupleColumns 0 []
  if generationColumn ≠ "" then
    (if res ≠ [] then res ++ [tabByte] else res) ++ natDec generationID
  else res

/-! ### Auxiliary definitions used by theorem statements and witnesses -/

/-- One engine operation of the kind claim C2 quantifies over: a
`FlushToMainTable` call or a `genSync` run, with its LSN argument and its
injected environment. -/
inductive EngOp where
  | flushMain (lsn : Nat) (env : FtmEnv)
  | syncOp (snapshotLSN : Nat) (env : SyncEnv)

/-- The LSN argument of an engine operation. -/
def EngOp.lsnArg : EngOp → Nat
  | .flushMain l _ => l
  | .syncOp l _ => l

/-- Run one engine operation and keep the post-state. -/
def runOp (cfg : Config) (st : EngineState) : EngOp → EngineState
  | .flushMain l env => (FlushToMainTable cfg st env l).state
  | .syncOp l env => (genSync cfg st env l).state

/-- The persisted checkpoint viewed as a number (`0` when no entry has
been written yet). -/
def cpVal (st : EngineState) : Nat := st.checkpoint.getD 0

/-- The checkpoint values observed along a sequence of engine operations,
starting state included. -/
def cpTrace (cfg : Config) : EngineState → List EngOp → List Nat
  | st, [] => [cpVal st]
  | st, op :: ops => cpVal st :: cpTrace cfg (runOp cfg st op) ops

/-- Spec-side description of the rows `processChTuples` writes while in
sync: each row followed by a tab, the row id (counting up from `startId`),
a tab, the event LSN, and a newline. -/
def augRows (startId lsn : Nat) : List (List Nat) → List Nat
  | [] => []
  | row :: rest =>
      row ++ tabByte :: natDec startId ++ tabByte :: natDec lsn ++
        newlineByte :: augRows (startId + 1) lsn rest

/-- The converter outputs of the mapped columns, in declared source-column
order, starting the index count at `i` (spec-side definition for the
`convertRow` characterization). -/
def emittedValsFrom (mapped : String → Bool) (conv : Nat → List Nat) :
    List PgColumn → Nat → List (List Nat)
  | [], _ => []
  | c :: rest, i =>
      if mapped c.name then conv i :: emittedValsFrom mapped conv rest (i + 1)
      else emittedValsFrom mapped conv rest (i + 1)

/-- Prepend a tab to every element and concatenate. -/
def joinTabbed (vs : List (List Nat)) : List Nat :=
  (vs.map fun v => tabByte :: v).flatten

/-- The index of the first source column present in `columnMapping`, if
any. -/
def firstMappedIdx (mapped : String → Bool) : List PgColumn → Option Nat
  | [] => none
  | c :: rest =>
      if mapped c.name then some 0
      else (firstMappedIdx mapped rest).map (· + 1)

/-- The leading bytes of `convertRow`'s output: a single tab exactly when
the first mapped source column does not sit at index 0. -/
def leadingTab (tupleColumns : List PgColumn) (mapped : String → Bool) : List Nat :=
  match firstMappedIdx mapped tupleColumns with
  | some (_ + 1) => [tabByte]
  | _ => []

/-- Join byte sequences with a single tab between adjacent elements (no
leading or trailing tab). -/
def tabJoin : List (List Nat) → List Nat
  | [] => []
  | [v] => v
  | v :: vs => v ++ tabByte :: tabJoin vs

/-- Accumulator-free form of `convertLoop`: the bytes a run of columns
starting at index `i` contributes. -/
def pieces (mapped : String → Bool) (conv : Nat → List Nat) :
    List PgColumn → Nat → List Nat
  | [], _ => []
  | c :: rest, i =>
      (if mapped c.name then (if 0 < i then [tabByte] else []) ++ conv i else []) ++
        pieces mapped conv rest (i + 1)

/-- How `convertRow` finishes a row when a generation column is
configured: a tab (only when the row is non-empty so far) and the decimal
generation counter. -/
def withGeneration (generationColumn : String) (generationID : Nat)
    (base : List Nat) : List Nat :=
  if generationColumn ≠ "" then
    (if base ≠ [] then base ++ [tabByte] else base) ++ natDec generationID
  else base

/-- The bytes the live (not-in-sync, non-stale) path appends to the
loader buffer: each row verbatim followed by a newline. -/
def flatRows (rows : List (List Nat)) : List Nat :=
  (rows.map fun row => row ++ [newlineByte]).flatten

/-- Whether a tuple set is non-nil and holds at least one row. -/
def hasRows : Option (List (List Nat)) → Bool
  | some (_ :: _) => true
  | _ => false

/-- The condition under which `processChTuples` drops its batch: not in
sync, a stale LSN, and at least one row present. -/
def dropsBatch (st : EngineState) (lsn : Nat)
    (set : Option (List (List Nat))) : Prop :=
  st.inSync = false ∧ lsn < st.syncSnapshotLSN ∧ hasRows set = true

instance (st : EngineState) (lsn : Nat) (set : Option (List (List Nat))) :
    Decidable (dropsBatch st lsn set) := by
  unfold dropsBatch; infer_instance

/-! ### Concrete fixtures used by witnesses and counterexamples -/

/-- A table configuration with buffer and sync-aux tables configured. -/
def cfgW : Config :=
  { maxBufferLength := 10, flushThreshold := 1, hasBufferTable := true,
    hasSyncAuxTable := true, initSyncSkipTruncate := false,
    flushQueries := ["promote"], mainTable := "m", bufferTable := "b",
    syncAuxTable := "a", chUsedColumns := ["c1"],
    bufferTableRowIdColumn := "rid", lsnColumnName := "lsn" }

/-- A live (post-sync) state with an empty delta buffer. -/
def stW : EngineState :=
  { bufferCmdId := 0, bufferRowId := 0, bufferFlushCnt := 0, inSync := false,
    syncSnapshotLSN := 200, auxTblRowID := 0, syncedRows := 0, rowsToSync := 0,
    buffer := [], checkpoint := none }

/-- An environment in which every sink call succeeds and the context is
never cancelled. -/
def envAllOk : FtmEnv :=
  { flushSink := fun _ => none, flushCancelled := fun _ => false,
    promRes := fun _ => none, promCancelled := fun _ => false,
    truncBufOk := true, persOk := true }

/-- An environment in which every promotion attempt fails (the first
query errors each time) while everything else succeeds and the context is
never cancelled. -/
def envPromFail : FtmEnv :=
  { flushSink := fun _ => none, flushCancelled := fun _ => false,
    promRes := fun _ => some 0, promCancelled := fun _ => false,
    truncBufOk := true, persOk := true }

/-- A fully successful `genSync` environment copying two rows. -/
def senvOk : SyncEnv :=
  { truncAux1Ok := true, statRows := some 2, truncMainOk := true,
    bulkStartOk := true, copyFail := none, copiedRows := 2,
    pgRowsAffected := 2, bulkFinishOk := true, loadOk := true,
    flushSink := fun _ => none, flushCancelled := fun _ => false,
    mergeOk := true, truncAux2Ok := true, persOk := true }

/-- A `genSync` environment whose COPY reports 1000 affected rows while
only 999 lines reached the uploader (scenario S6). -/
def senvMismatch : SyncEnv :=
  { senvOk with copiedRows := 999, pgRowsAffected := 1000 }

/-- A live state whose buffer was already flushed once to the buffer
table and not yet promoted (`bufferFlushCnt = 1`, empty delta buffer). -/
def stFlushedOnce : EngineState := { stW with bufferFlushCnt := 1 }

/-- A live state with five commands staged in the delta buffer and no
flush yet. -/
def stStaged : EngineState :=
  { stW with bufferCmdId := 5, bufferRowId := 5, buffer := [65, 10] }

/-- An in-sync state with two staged commands and a non-trivial row
counter. -/
def stSync : EngineState :=
  { stW with inSync := true, auxTblRowID := 7, bufferCmdId := 2,
             bufferRowId := 3, buffer := [1, 2] }

/-- A live state with nine staged commands (one short of `cfgW`'s
auto-flush threshold of ten). -/
def stNine : EngineState := { stW with bufferCmdId := 9, buffer := [65] }

/-! ### Helper lemmas -/

theorem attemptFlushBuffer_empty (cfg : Config) (st : EngineState)
    (res : Option String) (h : st.bufferCmdId = 0) :
    attemptFlushBuffer cfg st res = ⟨st, [], none⟩ := by
  unfold attemptFlushBuffer
  simp [h]

theorem flushAttempts_empty (cfg : Config) (sr : Nat → Option String)
    (c : Nat → Bool) (fuel i : Nat) (e : EngErr) (st : EngineState)
    (acc : List SinkCall) (h : st.bufferCmdId = 0) :
    flushAttempts cfg sr c (fuel + 1) i e st acc = ⟨st, acc, none⟩ := by
  unfold flushAttempts
  simp [attemptFlushBuffer_empty cfg st (sr i) h]

theorem flushBuffer_empty (cfg : Config) (sr : Nat → Option String)
    (c : Nat → Bool) (st : EngineState) (h : st.bufferCmdId = 0) :
    flushBuffer cfg st sr c = ⟨st, [], none⟩ := by
  have hm : maxAttempts = 99 + 1 := rfl
  unfold flushBuffer
  rw [hm]
  exact flushAttempts_empty cfg sr c 99 0 .abortRetrying st [] h

theorem attemptFlushBuffer_checkpoint (cfg : Config) (st : EngineState)
    (res : Option String) :
    (attemptFlushBuffer cfg st res).state.checkpoint = st.checkpoint := by
  rcases res with _ | msg <;> by_cases h : st.bufferCmdId = 0 <;>
    simp [attemptFlushBuffer, h]

theorem flushAttempts_checkpoint (cfg : Config) (sr : Nat → Option String)
    (c : Nat → Bool) (fuel : Nat) :
    ∀ i e st acc, (flushAttempts cfg sr c fuel i e st acc).state.checkpoint =
      st.checkpoint := by
  induction fuel with
  | zero => intro i e st acc; rfl
  | succ n ih =>
    intro i e st acc
    unfold flushAttempts
    cases h : (attemptFlushBuffer cfg st (sr i)).err with
    | none =>
      simp only [h]
      simpa using attemptFlushBuffer_checkpoint cfg st (sr i)
    | some e' =>
      by_cases hc : c i = true
      · simpa [h, hc] using attemptFlushBuffer_checkpoint cfg st (sr i)
      · simp only [h, hc]
        rw [if_neg (by simp [hc])]
        rw [ih]
        exact attemptFlushBuffer_checkpoint cfg st (sr i)

theorem flushBuffer_checkpoint (cfg : Config) (sr : Nat → Option String)
    (c : Nat → Bool) (st : EngineState) :
    (flushBuffer cfg st sr c).state.checkpoint = st.checkpoint :=
  flushAttempts_checkpoint cfg sr c maxAttempts 0 .abortRetrying st []

theorem tryFlushToMainTable_checkpoint (cfg : Config) (st : EngineState)
    (res : Option Nat) :
    (tryFlushToMainTable cfg st res).state.checkpoint = st.checkpoint := by
  rcases res with _ | k <;> simp [tryFlushToMainTable]

theorem promAttempts_checkpoint (cfg : Config) (pr : Nat → Option Nat)
    (pc : Nat → Bool) (fuel : Nat) :
    ∀ i st acc, (promAttempts cfg pr pc fuel i st acc).1.checkpoint =
      st.checkpoint := by
  induction fuel with
  | zero => intro i st acc; rfl
  | succ n ih =>
    intro i st acc
    unfold promAttempts
    cases h : (tryFlushToMainTable cfg st (pr i)).err with
    | none =>
      simp only [h]
      simpa using tryFlushToMainTable_checkpoint cfg st (pr i)
    | some e' =>
      by_cases hc : pc i = true
      · simpa [h, hc] using tryFlushToMainTable_checkpoint cfg st (pr i)
      · simp only [h, hc]
        rw [if_neg (by simp [hc])]
        rw [ih]
        exact tryFlushToMainTable_checkpoint cfg st (pr i)

/-! ### Claim theorems -/

/-- C9: `Truncate` sets `bufferCmdId` to 0 and leaves `bufferRowId` and
`bufferFlushCnt` unchanged, whatever the outcomes of the two sink
truncations. -/
theorem truncate_zeroes_only_cmdId (cfg : Config) (st : EngineState)
    (lsn : Nat) (truncMainOk truncBufOk : Bool) :
    (Truncate cfg st lsn truncMainOk truncBufOk).state.bufferCmdId = 0 ∧
    (Truncate cfg st lsn truncMainOk truncBufOk).state.bufferRowId =
      st.bufferRowId ∧
    (Truncate cfg st lsn truncMainOk truncBufOk).state.bufferFlushCnt =
      st.bufferFlushCnt := by
  unfold Truncate
  split_ifs <;> simp

/-- C10: with `bufferCmdId = 0`, `attemptFlushBuffer` and `flushBuffer`
are no-ops that issue no sink call, return success and leave the state
(hence `bufferFlushCnt`) unchanged; with additionally `bufferFlushCnt = 0`,
`FlushToMainTable` returns success issuing no sink call at all (so no
promotion query, no buffer-table truncation, no checkpoint write). -/
theorem emptyBuffer_noops (cfg : Config) (st : EngineState)
    (res : Option String) (sr : Nat → Option String) (c : Nat → Bool)
    (env : FtmEnv) (lsn : Nat) (h : st.bufferCmdId = 0) :
    attemptFlushBuffer cfg st res = ⟨st, [], none⟩ ∧
    flushBuffer cfg st sr c = ⟨st, [], none⟩ ∧
    (st.bufferFlushCnt = 0 → FlushToMainTable cfg st env lsn = ⟨st, [], none⟩) := by
  refine ⟨attemptFlushBuffer_empty cfg st res h, flushBuffer_empty cfg sr c st h, ?_⟩
  intro h0
  unfold FlushToMainTable
  rw [flushBuffer_empty cfg env.flushSink env.flushCancelled st h]
  simp [h0]

/-- Witness for C10 at a concrete empty-buffer state. -/
theorem emptyBuffer_noops_witness :
    attemptFlushBuffer cfgW stW none = ⟨stW, [], none⟩ ∧
    flushBuffer cfgW stW (fun _ => none) (fun _ => false) = ⟨stW, [], none⟩ ∧
    (stW.bufferFlushCnt = 0 →
      FlushToMainTable cfgW stW envAllOk 300 = ⟨stW, [], none⟩) :=
  emptyBuffer_noops cfgW stW none (fun _ => none) (fun _ => false) envAllOk 300
    (by decide)

/-- C3: a non-empty batch processed while not in sync with
`lsn < syncSnapshotLSN` is dropped whole: the state (loader buffer,
`bufferRowId`, `bufferCmdId`, `bufferFlushCnt`) is unchanged, no sink call
is made, and the handler returns `mergeNeeded = false` with no error. -/
theorem pct_drops_stale_batch (cfg : Config) (st : EngineState)
    (sr : Nat → Option String) (c : Nat → Bool) (lsn : Nat)
    (r : List Nat) (rs : List (List Nat))
    (h1 : st.inSync = false) (h2 : lsn < st.syncSnapshotLSN) :
    processChTuples cfg st sr c lsn (some (r :: rs)) = ⟨st, [], none, false⟩ := by
  unfold processChTuples procRows
  simp [h1, h2]

/-- Witness for C3: a one-row batch at LSN 150 against snapshot LSN 200. -/
theorem pct_drops_stale_batch_witness :
    processChTuples cfgW stW (fun _ => none) (fun _ => false) 150 (some [[65]]) =
      ⟨stW, [], none, false⟩ :=
  pct_drops_stale_batch cfgW stW (fun _ => none) (fun _ => false) 150 [65] []
    (by decide) (by decide)

set_option maxRecDepth 8000 in
set_option maxHeartbeats 1000000 in
/-- C1: evaluation of `FlushToMainTable` at the failing input.  With the
buffer table configured, `bufferFlushCnt = 1`, the delta-buffer flush
succeeding trivially, every one of the 100 promotion-query attempts
failing (the retry loop logs 100 `exec` calls) and the context never
cancelled, the source's retry loop drops its error: the call returns nil,
truncates the buffer table and writes the checkpoint (LSN 42) even though
the promotion queries never succeeded (`bufferFlushCnt` is still 1,
proving no attempt passed).  This contradicts the claim (and the spec's
stated durability barrier), and the sibling loop in `flushBuffer` shows
the intended error propagation, so the code is the slip. -/
theorem flushToMainTable_checkpoint_despite_promotion_failure :
    (FlushToMainTable cfgW stFlushedOnce envPromFail 42).err = none ∧
    (FlushToMainTable cfgW stFlushedOnce envPromFail 42).state.checkpoint = some 42 ∧
    (FlushToMainTable cfgW stFlushedOnce envPromFail 42).state.bufferFlushCnt = 1 ∧
    (FlushToMainTable cfgW stFlushedOnce envPromFail 42).calls.count
        (.exec "promote") = 100 ∧
    (FlushToMainTable cfgW stFlushedOnce envPromFail 42).calls.count
        (.truncate "b") = 1 ∧
    stFlushedOnce.checkpoint = none := by
  decide

/-- C2 counterexample: a successful `FlushToMainTable` at LSN 100 followed
by a successful `genSync` at snapshot LSN 50 moves the persisted
checkpoint from 100 back to 50 — a successful operation overwrites the
stored checkpoint with a strictly smaller LSN. -/
theorem checkpoint_can_move_backward :
    (FlushToMainTable cfgW stStaged envAllOk 100).err = none ∧
    (FlushToMainTable cfgW stStaged envAllOk 100).state.checkpoint = some 100 ∧
    (genSync cfgW (FlushToMainTable cfgW stStaged envAllOk 100).state senvOk 50).err
      = none ∧
    (genSync cfgW (FlushToMainTable cfgW stStaged envAllOk 100).state senvOk 50).state.checkpoint
      = some 50 ∧ 50 < 100 := by
  decide

set_option maxHeartbeats 2000000 in
/-- C5: whenever the source COPY's reported affected-row count differs
from the number of rows pushed through the uploader (`syncedRows`),
`genSync` returns an error, and neither the persisted checkpoint nor
`inSync` changes (in particular `inSync` stays true when it was). -/
theorem genSync_count_mismatch_errors (cfg : Config) (st : EngineState)
    (env : SyncEnv) (snapshotLSN : Nat)
    (h : env.pgRowsAffected ≠ (env.copiedRows : Int)) :
    (∃ e, (genSync cfg st env snapshotLSN).err = some e) ∧
    (genSync cfg st env snapshotLSN).state.checkpoint = st.checkpoint ∧
    (genSync cfg st env snapshotLSN).state.inSync = st.inSync := by
  unfold genSync
  cases hcf : env.copyFail <;> cases hst : env.statRows <;>
    split_ifs <;> first
      | exact absurd h (by assumption)
      | simp

/-- Witness for C5: scenario S6, COPY reports 1000 rows while
`syncedRows = 999`; starting in sync with no checkpoint written. -/
theorem genSync_count_mismatch_errors_witness :
    (∃ e, (genSync cfgW { stW with inSync := true } senvMismatch 200).err = some e) ∧
    (genSync cfgW { stW with inSync := true } senvMismatch 200).state.checkpoint
      = ({ stW with inSync := true } : EngineState).checkpoint ∧
    (genSync cfgW { stW with inSync := true } senvMismatch 200).state.inSync
      = ({ stW with inSync := true } : EngineState).inSync :=
  genSync_count_mismatch_errors cfgW { stW with inSync := true } senvMismatch 200
    (by decide)

/-- `genSyncTail` either leaves the persisted checkpoint unchanged or sets
it to exactly the snapshot LSN. -/
theorem genSyncTail_checkpoint (cfg : Config) (st : EngineState)
    (env : SyncEnv) (snapshotLSN : Nat) (c2 : List SinkCall) :
    (genSyncTail cfg st env snapshotLSN c2).state.checkpoint = st.checkpoint ∨
    (genSyncTail cfg st env snapshotLSN c2).state.checkpoint = some snapshotLSN := by
  unfold genSyncTail
  have hc := flushBuffer_checkpoint cfg env.flushSink env.flushCancelled st
  cases hf : (flushBuffer cfg st env.flushSink env.flushCancelled).err with
  | none => simp only [hf]; split_ifs <;> simp [hc]
  | some e => simp only [hf]; split_ifs <;> simp [hc]

set_option maxHeartbeats 2000000 in
/-- `genSync` either leaves the persisted checkpoint unchanged or sets it
to exactly its snapshot-LSN argument. -/
theorem genSync_checkpoint (cfg : Config) (st : EngineState) (env : SyncEnv)
    (snapshotLSN : Nat) :
    (genSync cfg st env snapshotLSN).state.checkpoint = st.checkpoint ∨
    (genSync cfg st env snapshotLSN).state.checkpoint = some snapshotLSN := by
  unfold genSync
  cases hcf : env.copyFail <;> cases hst : env.statRows <;> split_ifs <;>
    first
      | (left; rfl)
      | exact genSyncTail_checkpoint cfg _ env snapshotLSN _

/-- `FlushToMainTable` either leaves the persisted checkpoint unchanged or
sets it to exactly its LSN argument. -/
theorem flushToMainTable_checkpoint (cfg : Config) (st : EngineState)
    (env : FtmEnv) (lsn : Nat) :
    (FlushToMainTable cfg st env lsn).state.checkpoint = st.checkpoint ∨
    (FlushToMainTable cfg st env lsn).state.checkpoint = some lsn := by
  unfold FlushToMainTable
  have hf := flushBuffer_checkpoint cfg env.flushSink env.flushCancelled st
  cases h1 : (flushBuffer cfg st env.flushSink env.flushCancelled).err with
  | some e => simp only [h1]; left; exact hf
  | none =>
    simp only [h1]
    by_cases h2 : cfg.hasBufferTable = false ∨
        (flushBuffer cfg st env.flushSink env.flushCancelled).state.bufferFlushCnt = 0
    · rw [if_pos h2]; left; exact hf
    · rw [if_neg h2]
      have hp := promAttempts_checkpoint cfg env.promRes env.promCancelled
        maxAttempts 0 (flushBuffer cfg st env.flushSink env.flushCancelled).state []
      generalize hP : promAttempts cfg env.promRes env.promCancelled maxAttempts 0
          (flushBuffer cfg st env.flushSink env.flushCancelled).state [] = P
      rw [hP] at hp
      obtain ⟨ps, pc, po⟩ := P
      cases po <;> dsimp only <;>
        first
          | (split_ifs <;> first
              | (left; rw [hp, hf])
              | (right; rfl))
          | (left; rw [hp, hf])

/-- One engine operation either leaves the persisted checkpoint unchanged
or sets it to exactly the LSN it was invoked with. -/
theorem runOp_checkpoint (cfg : Config) (st : EngineState) (op : EngOp) :
    (runOp cfg st op).checkpoint = st.checkpoint ∨
    (runOp cfg st op).checkpoint = some op.lsnArg := by
  cases op with
  | flushMain l env => exact flushToMainTable_checkpoint cfg st env l
  | syncOp l env => exact genSync_checkpoint cfg st env l

theorem cpTrace_head (cfg : Config) (s : EngineState) (ops : List EngOp) :
    (cpTrace cfg s ops).head? = some (cpVal s) := by
  cases ops <;> rfl

set_option maxHeartbeats 800000 in
/-- C2 (amended): the engine writes exactly the caller-supplied LSN when
it advances the checkpoint, so along any sequence of `FlushToMainTable` /
`genSync` operations whose LSN arguments are non-decreasing (and at least
the initial stored checkpoint), the persisted checkpoint values are
stepwise non-decreasing.  (Unrestricted sequences can move it backward —
see the counterexample.) -/
theorem checkpoint_monotone_of_monotone_lsns (cfg : Config) :
    ∀ (ops : List EngOp) (s0 : EngineState),
      List.Chain' (· ≤ ·) (cpVal s0 :: ops.map EngOp.lsnArg) →
      List.Chain' (· ≤ ·) (cpTrace cfg s0 ops) := by
  intro ops
  induction ops with
  | nil => intro s0 h; simp [cpTrace]
  | cons op ops ih =>
    intro s0 h
    rw [List.map_cons, List.chain'_cons] at h
    obtain ⟨h1, h2⟩ := h
    have hboth : cpVal s0 ≤ cpVal (runOp cfg s0 op) ∧
        cpVal (runOp cfg s0 op) ≤ op.lsnArg := by
      rcases runOp_checkpoint cfg s0 op with h' | h'
      · constructor
        · simp [cpVal, h']
        · simpa [cpVal, h'] using h1
      · constructor
        · simpa [cpVal, h'] using h1
        · simp [cpVal, h']
    show List.Chain' (· ≤ ·) (cpVal s0 :: cpTrace cfg (runOp cfg s0 op) ops)
    rw [List.chain'_cons']
    constructor
    · intro y hy
      rw [cpTrace_head] at hy
      obtain rfl : cpVal (runOp cfg s0 op) = y := by simpa using hy
      exact hboth.1
    · apply ih
      rw [List.chain'_cons'] at h2 ⊢
      refine ⟨fun y hy => le_trans hboth.2 (h2.1 y hy), h2.2⟩

/-- Witness for the amended C2: a concrete two-operation trace with
non-decreasing LSN arguments; the checkpoint trace is non-decreasing. -/
theorem checkpoint_monotone_of_monotone_lsns_witness :
    List.Chain' (· ≤ ·) (cpTrace cfgW stStaged
      [EngOp.flushMain 100 envAllOk, EngOp.flushMain 150 envAllOk]) :=
  checkpoint_monotone_of_monotone_lsns cfgW
    [EngOp.flushMain 100 envAllOk, EngOp.flushMain 150 envAllOk] stStaged
    (by simp [List.chain'_cons, cpVal, stStaged, stW, EngOp.lsnArg])

theorem convertLoop_append (mapped : String → Bool) (conv : Nat → List Nat) :
    ∀ (cols : List PgColumn) (i : Nat) (res : List Nat),
      convertLoop mapped conv cols i res = res ++ pieces mapped conv cols i := by
  intro cols
  induction cols with
  | nil => intro i res; simp [convertLoop, pieces]
  | cons c rest ih =>
    intro i res
    unfold convertLoop pieces
    by_cases hm : mapped c.name
    · by_cases hi : 0 < i <;> simp [hm, hi, ih, List.append_assoc]
    · simp [hm, ih]

theorem pieces_pos (mapped : String → Bool) (conv : Nat → List Nat) :
    ∀ (cols : List PgColumn) (i : Nat), 0 < i →
      pieces mapped conv cols i =
        joinTabbed (emittedValsFrom mapped conv cols i) := by
  intro cols
  induction cols with
  | nil => intro i hi; simp [pieces, emittedValsFrom, joinTabbed]
  | cons c rest ih =>
    intro i hi
    unfold pieces emittedValsFrom
    by_cases hm : mapped c.name
    · simp [hm, hi, ih (i + 1) (Nat.succ_pos i), joinTabbed]
    · simp [hm, ih (i + 1) (Nat.succ_pos i)]

theorem tabJoin_cons (vs : List (List Nat)) :
    ∀ v, tabJoin (v :: vs) = v ++ joinTabbed vs := by
  induction vs with
  | nil => intro v; simp [tabJoin, joinTabbed]
  | cons w ws ih =>
    intro v
    rw [show tabJoin (v :: w :: ws) = v ++ tabByte :: tabJoin (w :: ws) from rfl]
    rw [ih w]
    simp [joinTabbed]

theorem emittedValsFrom_nil_iff (mapped : String → Bool) (conv : Nat → List Nat) :
    ∀ (cols : List PgColumn) (i : Nat),
      emittedValsFrom mapped conv cols i = [] ↔
        firstMappedIdx mapped cols = none := by
  intro cols
  induction cols with
  | nil => intro i; simp [emittedValsFrom, firstMappedIdx]
  | cons c rest ih =>
    intro i
    unfold emittedValsFrom firstMappedIdx
    by_cases hm : mapped c.name
    · simp [hm]
    · simp [hm, ih (i + 1), Option.map_eq_none]

theorem pieces_zero (mapped : String → Bool) (conv : Nat → List Nat)
    (cols : List PgColumn) :
    pieces mapped conv cols 0 =
      leadingTab cols mapped ++ tabJoin (emittedValsFrom mapped conv cols 0) := by
  cases cols with
  | nil => rfl
  | cons c rest =>
    unfold pieces emittedValsFrom leadingTab firstMappedIdx
    by_cases hm : mapped c.name
    · rw [pieces_pos mapped conv rest 1 Nat.one_pos]
      simp [hm, tabJoin_cons]
    · rw [pieces_pos mapped conv rest 1 Nat.one_pos]
      cases hv : emittedValsFrom mapped conv rest 1 with
      | nil =>
        have : firstMappedIdx mapped rest = none :=
          (emittedValsFrom_nil_iff mapped conv rest 1).mp hv
        simp [hm, hv, this, joinTabbed, tabJoin]
      | cons v vs =>
        have hne : firstMappedIdx mapped rest ≠ none := by
          intro hnone
          have := (emittedValsFrom_nil_iff mapped conv rest 1).mpr hnone
          simp [hv] at this
        obtain ⟨k, hk⟩ := Option.ne_none_iff_exists'.mp hne
        simp [hm, hv, hk, tabJoin_cons, joinTabbed]

/-- C4 counterexample: with source columns `a, b` where only `b` is
mapped, `convertRow` emits a leading tab (before the single emitted
column), contradicting the claim that the output never starts with a
tab. -/
theorem convertRow_leading_tab_counterexample :
    convertRow [⟨"a", false⟩, ⟨"b", false⟩] (fun n => n == "b")
        (fun _ => [65]) "" 0 = [tabByte, 65] ∧
    ([tabByte, 65] : List Nat).head? = some tabByte := by
  decide

/-- C4 (amended): `convertRow` emits the converter outputs of the mapped
columns in declared source order with a single tab between adjacent
emitted columns and no trailing tab, but it prepends one tab before each
emitted column whose source index is positive — so the output starts with
a tab exactly when the first mapped source column does not sit at index 0
(`leadingTab`); when a generation column is configured, the generation
counter is appended as the final column, preceded by a tab iff the row is
non-empty so far. -/
theorem convertRow_tab_layout (cols : List PgColumn) (mapped : String → Bool)
    (conv : Nat → List Nat) (generationColumn : String) (generationID : Nat) :
    convertRow cols mapped conv generationColumn generationID =
      withGeneration generationColumn generationID
        (leadingTab cols mapped ++ tabJoin (emittedValsFrom mapped conv cols 0)) := by
  unfold convertRow withGeneration
  rw [convertLoop_append, List.nil_append, pieces_zero]

/-- While in sync, the tuple loop appends exactly the augmented rows and
advances `auxTblRowID` / `bufferRowId` by the row count; it never drops. -/
theorem procRows_inSync (lsn : Nat) :
    ∀ (rows : List (List Nat)) (st : EngineState), st.inSync = true →
      procRows lsn st rows =
        ({ st with buffer := st.buffer ++ augRows st.auxTblRowID lsn rows,
                   auxTblRowID := st.auxTblRowID + rows.length,
                   bufferRowId := st.bufferRowId + rows.length }, false) := by
  intro rows
  induction rows with
  | nil =>
    intro st h
    simp [procRows, augRows]
  | cons row rest ih =>
    intro st h
    simp [procRows, h, ih, augRows, List.append_assoc,
      Nat.add_comm, Nat.add_left_comm, Nat.add_assoc]

/-- While live with a non-stale LSN, the tuple loop writes the rows
verbatim (each with a trailing newline) and advances `bufferRowId`; it
never drops. -/
theorem procRows_live (lsn : Nat) :
    ∀ (rows : List (List Nat)) (st : EngineState), st.inSync = false →
      st.syncSnapshotLSN ≤ lsn →
      procRows lsn st rows =
        ({ st with buffer := st.buffer ++ flatRows rows,
                   bufferRowId := st.bufferRowId + rows.length }, false) := by
  intro rows
  induction rows with
  | nil =>
    intro st h hl
    simp [procRows, flatRows]
  | cons row rest ih =>
    intro st h hl
    simp [procRows, h, hl, Nat.not_lt.mpr hl, ih, flatRows, List.append_assoc,
      Nat.add_comm, Nat.add_left_comm, Nat.add_assoc]

/-- When the buffer is non-empty and the first sink attempt succeeds, the
retrying `flushBuffer` returns after exactly that one successful attempt. -/
theorem flushBuffer_first_success (cfg : Config) (st : EngineState)
    (sr : Nat → Option String) (c : Nat → Bool)
    (h0 : st.bufferCmdId ≠ 0) (h3 : sr 0 = none) :
    flushBuffer cfg st sr c =
      ⟨{ st with bufferCmdId := 0, bufferFlushCnt := st.bufferFlushCnt + 1,
                 buffer := [] },
       [.bufferFlush (flushTarget cfg st)
          (if st.inSync then syncAuxTableColumns cfg else cfg.chUsedColumns)],
       none⟩ := by
  have hm : maxAttempts = 99 + 1 := rfl
  unfold flushBuffer
  rw [hm]
  unfold flushAttempts attemptFlushBuffer
  simp [h0, h3]

/-- Behaviour of the post-loop part of `processChTuples`: the auto-flush
fires iff the command counter equals `maxBufferLength`; a fired flush
whose sink call succeeds zeroes the counter and bumps `bufferFlushCnt`;
no error is returned; `mergeNeeded` is exactly
`bufferTable configured ∧ flushThreshold ≤ bufferFlushCnt`. -/
theorem pctFinish_spec (cfg : Config) (st1 : EngineState)
    (sr : Nat → Option String) (c : Nat → Bool)
    (h1 : 0 < cfg.maxBufferLength) (h3 : sr 0 = none) :
    ((pctFinish cfg st1 sr c).calls ≠ [] ↔
        st1.bufferCmdId = cfg.maxBufferLength) ∧
    (st1.bufferCmdId = cfg.maxBufferLength →
        (pctFinish cfg st1 sr c).state.bufferCmdId = 0 ∧
        (pctFinish cfg st1 sr c).state.bufferFlushCnt = st1.bufferFlushCnt + 1) ∧
    (st1.bufferCmdId ≠ cfg.maxBufferLength →
        (pctFinish cfg st1 sr c).state = st1) ∧
    (pctFinish cfg st1 sr c).err = none ∧
    ((pctFinish cfg st1 sr c).mergeNeeded =
        (cfg.hasBufferTable &&
          decide (cfg.flushThreshold ≤ (pctFinish cfg st1 sr c).state.bufferFlushCnt))) := by
  by_cases hm : st1.bufferCmdId = cfg.maxBufferLength
  · have h0 : st1.bufferCmdId ≠ 0 := by omega
    unfold pctFinish
    rw [if_pos hm, flushBuffer_first_success cfg st1 sr c h0 h3]
    by_cases hb : cfg.hasBufferTable <;> simp [hm, hb]
  · unfold pctFinish
    rw [if_neg hm]
    by_cases hb : cfg.hasBufferTable <;> simp [hm, hb]

set_option maxHeartbeats 800000 in
/-- C6: while in sync, a non-empty batch is written with each row
followed by a tab, the running `auxTblRowID` in decimal, a tab, the event
LSN, and a newline; `auxTblRowID` and `bufferRowId` advance by the row
count and `bufferCmdId` by exactly one (stated away from the auto-flush
boundary so the post-batch counters are observable), `bufferFlushCnt` is
untouched and no error occurs; and any buffer flush performed while in
sync ships the buffer to the sync-aux table with the aux columns. -/
theorem pct_inSync_appends (cfg : Config) (st : EngineState)
    (sr : Nat → Option String) (c : Nat → Bool) (lsn : Nat)
    (rows : List (List Nat)) (h1 : st.inSync = true) (h2 : rows ≠ [])
    (h3 : st.bufferCmdId + 1 ≠ cfg.maxBufferLength) :
    (processChTuples cfg st sr c lsn (some rows)).state.buffer =
        st.buffer ++ augRows st.auxTblRowID lsn rows ∧
    (processChTuples cfg st sr c lsn (some rows)).state.auxTblRowID =
        st.auxTblRowID + rows.length ∧
    (processChTuples cfg st sr c lsn (some rows)).state.bufferRowId =
        st.bufferRowId + rows.length ∧
    (processChTuples cfg st sr c lsn (some rows)).state.bufferCmdId =
        st.bufferCmdId + 1 ∧
    (processChTuples cfg st sr c lsn (some rows)).state.bufferFlushCnt =
        st.bufferFlushCnt ∧
    (processChTuples cfg st sr c lsn (some rows)).err = none ∧
    (∀ (st2 : EngineState) (res : Option String), st2.inSync = true →
        st2.bufferCmdId ≠ 0 →
        (attemptFlushBuffer cfg st2 res).calls =
          [.bufferFlush cfg.syncAuxTable (syncAuxTableColumns cfg)]) := by
  have hrec := procRows_inSync lsn rows st h1
  have hmain : processChTuples cfg st sr c lsn (some rows) =
      pctFinish cfg
        { st with buffer := st.buffer ++ augRows st.auxTblRowID lsn rows,
                  auxTblRowID := st.auxTblRowID + rows.length,
                  bufferRowId := st.bufferRowId + rows.length,
                  bufferCmdId := st.bufferCmdId + 1 } sr c := by
    dsimp only [processChTuples]
    rw [hrec]
    rfl
  have hfin : pctFinish cfg
      { st with buffer := st.buffer ++ augRows st.auxTblRowID lsn rows,
                auxTblRowID := st.auxTblRowID + rows.length,
                bufferRowId := st.bufferRowId + rows.length,
                bufferCmdId := st.bufferCmdId + 1 } sr c =
      ⟨{ st with buffer := st.buffer ++ augRows st.auxTblRowID lsn rows,
                 auxTblRowID := st.auxTblRowID + rows.length,
                 bufferRowId := st.bufferRowId + rows.length,
                 bufferCmdId := st.bufferCmdId + 1 }, [], none,
        cfg.hasBufferTable &&
          decide (cfg.flushThreshold ≤ st.bufferFlushCnt)⟩ := by
    unfold pctFinish
    rw [if_neg (by simpa using h3)]
    by_cases hb : cfg.hasBufferTable <;> simp [hb]
  rw [hmain, hfin]
  refine ⟨rfl, rfl, rfl, rfl, rfl, rfl, ?_⟩
  intro st2 res h4 h5
  unfold attemptFlushBuffer flushTarget
  rcases res with _ | msg <;> simp [h4, h5]

/-- Witness for C6 at a concrete in-sync state: two rows at LSN 500. -/
theorem pct_inSync_appends_witness :
    (processChTuples cfgW stSync (fun _ => none) (fun _ => false) 500
        (some [[65], [66]])).state.buffer =
        stSync.buffer ++ augRows stSync.auxTblRowID 500 [[65], [66]] ∧
    (processChTuples cfgW stSync (fun _ => none) (fun _ => false) 500
        (some [[65], [66]])).state.auxTblRowID =
        stSync.auxTblRowID + ([[65], [66]] : List (List Nat)).length ∧
    (processChTuples cfgW stSync (fun _ => none) (fun _ => false) 500
        (some [[65], [66]])).state.bufferRowId =
        stSync.bufferRowId + ([[65], [66]] : List (List Nat)).length ∧
    (processChTuples cfgW stSync (fun _ => none) (fun _ => false) 500
        (some [[65], [66]])).state.bufferCmdId =
        stSync.bufferCmdId + 1 ∧
    (processChTuples cfgW stSync (fun _ => none) (fun _ => false) 500
        (some [[65], [66]])).state.bufferFlushCnt =
        stSync.bufferFlushCnt ∧
    (processChTuples cfgW stSync (fun _ => none) (fun _ => false) 500
        (some [[65], [66]])).err = none ∧
    (∀ (st2 : EngineState) (res : Option String), st2.inSync = true →
        st2.bufferCmdId ≠ 0 →
        (attemptFlushBuffer cfgW st2 res).calls =
          [.bufferFlush cfgW.syncAuxTable (syncAuxTableColumns cfgW)]) :=
  pct_inSync_appends cfgW stSync (fun _ => none) (fun _ => false) 500
    [[65], [66]] (by decide) (by decide) (by decide)

set_option maxHeartbeats 800000 in
/-- C7: for any non-dropped batch whose flush (if fired) succeeds at the
first sink attempt, the auto-flush fires iff the post-batch command count
equals `maxBufferLength`; a fired flush zeroes `bufferCmdId` and bumps
`bufferFlushCnt` by one; no error is returned; and `mergeNeeded` is
exactly `bufferTable configured ∧ flushThreshold ≤ bufferFlushCnt`. -/
theorem pct_autoflush_iff (cfg : Config) (st : EngineState)
    (sr : Nat → Option String) (c : Nat → Bool) (lsn : Nat)
    (set : Option (List (List Nat)))
    (h1 : 0 < cfg.maxBufferLength) (h2 : ¬ dropsBatch st lsn set)
    (h3 : sr 0 = none) :
    ((processChTuples cfg st sr c lsn set).calls ≠ [] ↔
        st.bufferCmdId + (if set.isSome then 1 else 0) = cfg.maxBufferLength) ∧
    (st.bufferCmdId + (if set.isSome then 1 else 0) = cfg.maxBufferLength →
        (processChTuples cfg st sr c lsn set).state.bufferCmdId = 0 ∧
        (processChTuples cfg st sr c lsn set).state.bufferFlushCnt =
          st.bufferFlushCnt + 1) ∧
    (processChTuples cfg st sr c lsn set).err = none ∧
    ((processChTuples cfg st sr c lsn set).mergeNeeded =
        (cfg.hasBufferTable && decide (cfg.flushThreshold ≤
            (processChTuples cfg st sr c lsn set).state.bufferFlushCnt))) := by
  obtain ⟨st2, hpct, hcmd, hcnt⟩ :
      ∃ st2, processChTuples cfg st sr c lsn set = pctFinish cfg st2 sr c ∧
        st2.bufferCmdId = st.bufferCmdId + (if set.isSome then 1 else 0) ∧
        st2.bufferFlushCnt = st.bufferFlushCnt := by
    match set with
    | none => exact ⟨st, by unfold processChTuples; rfl, by simp, rfl⟩
    | some [] =>
        exact ⟨{ st with bufferCmdId := st.bufferCmdId + 1 },
          by unfold processChTuples procRows; rfl, by simp, rfl⟩
    | some (r :: rs) =>
        cases hsync : st.inSync with
        | true =>
            have hrec := procRows_inSync lsn (r :: rs) st hsync
            refine ⟨{ st with
                buffer := st.buffer ++ augRows st.auxTblRowID lsn (r :: rs),
                auxTblRowID := st.auxTblRowID + (r :: rs).length,
                bufferRowId := st.bufferRowId + (r :: rs).length,
                bufferCmdId := st.bufferCmdId + 1 }, ?_, by simp, by simp⟩
            dsimp only [processChTuples]
            rw [hrec]
            rfl
        | false =>
            have hlt : ¬ lsn < st.syncSnapshotLSN := by
              intro hl
              exact h2 ⟨hsync, hl, rfl⟩
            have hrec := procRows_live lsn (r :: rs) st hsync (Nat.not_lt.mp hlt)
            refine ⟨{ st with
                buffer := st.buffer ++ flatRows (r :: rs),
                bufferRowId := st.bufferRowId + (r :: rs).length,
                bufferCmdId := st.bufferCmdId + 1 }, ?_, by simp, by simp⟩
            dsimp only [processChTuples]
            rw [hrec]
            rfl
  have hspec := pctFinish_spec cfg st2 sr c h1 h3
  rw [hpct]
  refine ⟨?_, ?_, ?_, ?_⟩
  · rw [← hcmd]
    exact hspec.1
  · intro hEq
    have hfl := hspec.2.1 (by rw [hcmd]; exact hEq)
    exact ⟨hfl.1, by rw [hfl.2, hcnt]⟩
  · exact hspec.2.2.2.1
  · exact hspec.2.2.2.2

/-- Witness for C7: a batch that brings the command counter to the
threshold, firing a successful flush. -/
theorem pct_autoflush_iff_witness :
    ((processChTuples cfgW stNine (fun _ => none) (fun _ => false) 300
        (some [[66]])).calls ≠ [] ↔
        stNine.bufferCmdId +
          (if (some [[66]] : Option (List (List Nat))).isSome then 1 else 0) =
          cfgW.maxBufferLength) ∧
    (stNine.bufferCmdId +
          (if (some [[66]] : Option (List (List Nat))).isSome then 1 else 0) =
          cfgW.maxBufferLength →
        (processChTuples cfgW stNine (fun _ => none) (fun _ => false) 300
          (some [[66]])).state.bufferCmdId = 0 ∧
        (processChTuples cfgW stNine (fun _ => none) (fun _ => false) 300
          (some [[66]])).state.bufferFlushCnt = stNine.bufferFlushCnt + 1) ∧
    (processChTuples cfgW stNine (fun _ => none) (fun _ => false) 300
        (some [[66]])).err = none ∧
    ((processChTuples cfgW stNine (fun _ => none) (fun _ => false) 300
        (some [[66]])).mergeNeeded =
        (cfgW.hasBufferTable && decide (cfgW.flushThreshold ≤
            (processChTuples cfgW stNine (fun _ => none) (fun _ => false) 300
              (some [[66]])).state.bufferFlushCnt))) :=
  pct_autoflush_iff cfgW stNine (fun _ => none) (fun _ => false) 300
    (some [[66]]) (by decide) (by decide) rfl

theorem attemptFlushBuffer_some (cfg : Config) (st : EngineState) (m : String)
    (h0 : st.bufferCmdId ≠ 0) :
    attemptFlushBuffer cfg st (some m) =
      ⟨st, [.bufferFlush (flushTarget cfg st)
              (if st.inSync then syncAuxTableColumns cfg else cfg.chUsedColumns)],
        some (.flushErr (flushTarget cfg st) m)⟩ := by
  unfold attemptFlushBuffer
  simp [h0]

theorem attemptFlushBuffer_none (cfg : Config) (st : EngineState)
    (h0 : st.bufferCmdId ≠ 0) :
    attemptFlushBuffer cfg st none =
      ⟨{ st with bufferCmdId := 0, bufferFlushCnt := st.bufferFlushCnt + 1,
                 buffer := [] },
        [.bufferFlush (flushTarget cfg st)
           (if st.inSync then syncAuxTableColumns cfg else cfg.chUsedColumns)],
        none⟩ := by
  unfold attemptFlushBuffer
  simp [h0]

theorem attemptFlushBuffer_calls_le_one (cfg : Config) (st : EngineState)
    (res : Option String) : (attemptFlushBuffer cfg st res).calls.length ≤ 1 := by
  rcases res with _ | m <;> by_cases h : st.bufferCmdId = 0 <;>
    simp [attemptFlushBuffer, h]

theorem flushAttempts_calls_le (cfg : Config) (sr : Nat → Option String)
    (c : Nat → Bool) (fuel : Nat) :
    ∀ i e st acc, (flushAttempts cfg sr c fuel i e st acc).calls.length ≤
      acc.length + fuel := by
  induction fuel with
  | zero => intro i e st acc; simp [flushAttempts]
  | succ n ih =>
    intro i e st acc
    have hone := attemptFlushBuffer_calls_le_one cfg st (sr i)
    unfold flushAttempts
    cases h : (attemptFlushBuffer cfg st (sr i)).err with
    | none =>
      simp only [h, List.length_append]
      omega
    | some e' =>
      by_cases hc : c i = true
      · simp only [h, hc, if_true, List.length_append]
        omega
      · simp only [h, hc]
        rw [if_neg (by simp [hc])]
        calc (flushAttempts cfg sr c n (i + 1) e'
                (attemptFlushBuffer cfg st (sr i)).state
                (acc ++ (attemptFlushBuffer cfg st (sr i)).calls)).calls.length ≤
              (acc ++ (attemptFlushBuffer cfg st (sr i)).calls).length + n := ih _ _ _ _
          _ ≤ acc.length + (n + 1) := by
              simp only [List.length_append]
              omega

theorem flushAttempts_success (cfg : Config) (sr : Nat → Option String)
    (c : Nat → Bool) (fuel : Nat) :
    ∀ i e st acc,
      (∃ k, k < fuel ∧ (st.bufferCmdId = 0 ∨ sr (i + k) = none) ∧
        ∀ j, j < k → c (i + j) = false) →
      (flushAttempts cfg sr c fuel i e st acc).err = none := by
  induction fuel with
  | zero =>
    rintro i e st acc ⟨k, hk, _⟩
    omega
  | succ n ih =>
    rintro i e st acc ⟨k, hk, hksucc, hkc⟩
    by_cases h0 : st.bufferCmdId = 0
    · rw [flushAttempts_empty cfg sr c n i e st acc h0]
    · cases hsr : sr i with
      | none =>
        unfold flushAttempts
        rw [hsr, attemptFlushBuffer_none cfg st h0]
      | some m =>
        have hk0 : k ≠ 0 := by
          rintro rfl
          rcases hksucc with h' | h'
          · exact h0 h'
          · rw [Nat.add_zero, hsr] at h'
            exact Option.noConfusion h'
        obtain ⟨k', rfl⟩ := Nat.exists_eq_succ_of_ne_zero hk0
        have hci : c i = false := by simpa using hkc 0 (Nat.succ_pos k')
        unfold flushAttempts
        rw [hsr, attemptFlushBuffer_some cfg st m h0]
        dsimp only
        rw [if_neg (by simp [hci])]
        apply ih
        refine ⟨k', by omega, ?_, ?_⟩
        · rw [show i + 1 + k' = i + (k' + 1) by omega]
          exact Or.inr (hksucc.resolve_left h0)
        · intro j hj
          rw [show i + 1 + j = i + (j + 1) by omega]
          exact hkc (j + 1) (by omega)

theorem flushAttempts_cancel (cfg : Config) (sr : Nat → Option String)
    (c : Nat → Bool) (fuel : Nat) :
    ∀ i e st acc k, k < fuel → st.bufferCmdId ≠ 0 →
      (∀ j, j ≤ k → sr (i + j) ≠ none) → (∀ j, j < k → c (i + j) = false) →
      c (i + k) = true →
      (flushAttempts cfg sr c fuel i e st acc).err = some .abortRetrying ∧
      (flushAttempts cfg sr c fuel i e st acc).state = st := by
  induction fuel with
  | zero =>
    intro i e st acc k hk
    omega
  | succ n ih =>
    intro i e st acc k hk h0 hsr hc hck
    obtain ⟨m, hm⟩ : ∃ m, sr i = some m := by
      have := hsr 0 (Nat.zero_le k)
      rw [Nat.add_zero] at this
      exact Option.ne_none_iff_exists'.mp this
    unfold flushAttempts
    rw [hm, attemptFlushBuffer_some cfg st m h0]
    dsimp only
    cases k with
    | zero =>
      rw [if_pos (by simpa using hck)]
      exact ⟨rfl, rfl⟩
    | succ k' =>
      have hci : c i = false := by simpa using hc 0 (Nat.succ_pos k')
      rw [if_neg (by simp [hci])]
      apply ih (i + 1) _ st _ k' (by omega) h0
      · intro j hj
        rw [show i + 1 + j = i + (j + 1) by omega]
        exact hsr (j + 1) (by omega)
      · intro j hj
        rw [show i + 1 + j = i + (j + 1) by omega]
        exact hc (j + 1) (by omega)
      · rw [show i + 1 + k' = i + (k' + 1) by omega]
        exact hck

theorem flushAttempts_exhaust (cfg : Config) (sr : Nat → Option String)
    (c : Nat → Bool) (fuel : Nat) :
    ∀ i e st acc m, st.bufferCmdId ≠ 0 →
      (∀ j, j < fuel → sr (i + j) ≠ none) → (∀ j, j < fuel → c (i + j) = false) →
      sr (i + fuel - 1) = some m → 0 < fuel →
      (flushAttempts cfg sr c fuel i e st acc).err =
        some (.flushErr (flushTarget cfg st) m) ∧
      (flushAttempts cfg sr c fuel i e st acc).state = st := by
  induction fuel with
  | zero =>
    intro i e st acc m _ _ _ _ h
    omega
  | succ n ih =>
    intro i e st acc m h0 hsr hc hlast _
    obtain ⟨m0, hm0⟩ : ∃ m0, sr i = some m0 := by
      have := hsr 0 (Nat.succ_pos n)
      rw [Nat.add_zero] at this
      exact Option.ne_none_iff_exists'.mp this
    have hci : c i = false := by simpa using hc 0 (Nat.succ_pos n)
    unfold flushAttempts
    rw [hm0, attemptFlushBuffer_some cfg st m0 h0]
    dsimp only
    rw [if_neg (by simp [hci])]
    cases n with
    | zero =>
      have hmm : m0 = m := by
        rw [show i + 1 - 1 = i + 0 by omega, Nat.add_zero, hm0] at hlast
        exact (Option.some.injEq m0 m).mp hlast
      subst hmm
      exact ⟨rfl, rfl⟩
    | succ n' =>
      apply ih (i + 1) _ st _ m h0
      · intro j hj
        rw [show i + 1 + j = i + (j + 1) by omega]
        exact hsr (j + 1) (by omega)
      · intro j hj
        rw [show i + 1 + j = i + (j + 1) by omega]
        exact hc (j + 1) (by omega)
      · rw [show i + 1 + (n' + 1) - 1 = i + (n' + 1 + 1) - 1 by omega]
        exact hlast
      · omega

/-- C8: the `flushBuffer` retry contract.  (1) At most `maxAttempts = 100`
sink attempts are issued.  (2) If some attempt within the budget succeeds
(the buffer being empty counts as immediate success) and the context was
not cancelled before it, `flushBuffer` returns no error.  (3) If the
context is cancelled at the select following a failed attempt,
`flushBuffer` returns the terminal "abort retrying" error and
`bufferFlushCnt` is unchanged.  (4) If all 100 attempts fail with no
cancellation, `flushBuffer` returns the last (100th) attempt's error and
`bufferFlushCnt` is unchanged. -/
theorem flushBuffer_retry_contract (cfg : Config) (st : EngineState)
    (sr : Nat → Option String) (c : Nat → Bool) :
    ((flushBuffer cfg st sr c).calls.length ≤ maxAttempts) ∧
    ((∃ k, k < maxAttempts ∧ (st.bufferCmdId = 0 ∨ sr k = none) ∧
        ∀ j, j < k → c j = false) → (flushBuffer cfg st sr c).err = none) ∧
    (∀ k, k < maxAttempts → st.bufferCmdId ≠ 0 → (∀ j, j ≤ k → sr j ≠ none) →
        (∀ j, j < k → c j = false) → c k = true →
        (flushBuffer cfg st sr c).err = some .abortRetrying ∧
        (flushBuffer cfg st sr c).state.bufferFlushCnt = st.bufferFlushCnt) ∧
    (∀ m, st.bufferCmdId ≠ 0 → (∀ j, j < maxAttempts → sr j ≠ none) →
        (∀ j, j < maxAttempts → c j = false) → sr (maxAttempts - 1) = some m →
        (flushBuffer cfg st sr c).err =
          some (.flushErr (flushTarget cfg st) m) ∧
        (flushBuffer cfg st sr c).state.bufferFlushCnt = st.bufferFlushCnt) := by
  refine ⟨?_, ?_, ?_, ?_⟩
  · simpa using flushAttempts_calls_le cfg sr c maxAttempts 0 .abortRetrying st []
  · rintro ⟨k, hk, hks, hkc⟩
    apply flushAttempts_success cfg sr c maxAttempts 0 .abortRetrying st []
    exact ⟨k, hk, by simpa using hks, fun j hj => by simpa using hkc j hj⟩
  · intro k hk h0 hsr hc hck
    have h := flushAttempts_cancel cfg sr c maxAttempts 0 .abortRetrying st [] k hk h0
      (fun j hj => by simpa using hsr j hj) (fun j hj => by simpa using hc j hj)
      (by simpa using hck)
    exact ⟨h.1, by rw [show flushBuffer cfg st sr c =
      flushAttempts cfg sr c maxAttempts 0 .abortRetrying st [] from rfl, h.2]⟩
  · intro m h0 hsr hc hlast
    have h := flushAttempts_exhaust cfg sr c maxAttempts 0 .abortRetrying st [] m h0
      (fun j hj => by simpa using hsr j hj) (fun j hj => by simpa using hc j hj)
      (by simpa using hlast) (by norm_num [maxAttempts])
    exact ⟨h.1, by rw [show flushBuffer cfg st sr c =
      flushAttempts cfg sr c maxAttempts 0 .abortRetrying st [] from rfl, h.2]⟩

/-- Witness for C8: two failed attempts then a success on the third, no
cancellation: the sink is called at most 100 times and no error is
returned. -/
theorem flushBuffer_retry_contract_witness :
    (flushBuffer cfgW stNine (fun i => if i < 2 then some "boom" else none)
        (fun _ => false)).calls.length ≤ maxAttempts ∧
    (flushBuffer cfgW stNine (fun i => if i < 2 then some "boom" else none)
        (fun _ => false)).err = none :=
  ⟨(flushBuffer_retry_contract cfgW stNine
      (fun i => if i < 2 then some "boom" else none) (fun _ => false)).1,
   (flushBuffer_retry_contract cfgW stNine
      (fun i => if i < 2 then some "boom" else none) (fun _ => false)).2.1
     ⟨2, by decide, Or.inr rfl, fun j hj => rfl⟩⟩

end Pg2ch